import Mathlib

/-
Verification development for the configuration schema of buildbot-nix
(src/buildbot_nix/models.py).

The pydantic models are shallowly embedded: a configuration document is a
`Json` value, pydantic validation of each model class becomes an explicit
parse function `Json → Except Err _`, computed properties become ordinary
functions, and the ambient filesystem is threaded as `FS : Path → Option
String`.  Each secret-reading operation also reports the list of file paths
it read, so laziness of secret access is an observable property.

The parse functions take the filesystem `fs` as an argument because parsing
happens in a world where the filesystem is available; mirroring the source
(whose model classes have no validators performing I/O), their bodies never
consult `fs`.
-/

/-- Filesystem paths; `pathlib.Path` is embedded as its string form. -/
abbrev NixPath := String

/-- The ambient filesystem: maps a path to the file's raw contents when the
file exists. -/
abbrev FS := NixPath → Option String

/-- Error taxonomy of the module: `InternalError` raised by secret accessors
whose backing optional reference is unset; I/O errors from reading secret
files; pydantic validation errors, labelled with the offending field. -/
inductive Err where
  | internalError
  | ioError
  | validation (field : String)
deriving DecidableEq

/-- Structured configuration input, as produced by the hosting framework's
configuration loader (JSON-like values). -/
inductive Json where
  | null
  | str (s : String)
  | num (n : Int)
  | bool (b : Bool)
  | arr (elems : List Json)
  | obj (entries : List (String × Json))

/-- Field lookup on an object document; `none` on missing fields and on
non-object documents. -/
def Json.get (j : Json) (k : String) : Option Json :=
  match j with
  | .obj entries => entries.lookup k
  | _ => none

/-- Modelled from the spec: `read_secret_file` (imported from
`.secrets`, a module whose source is not part of this snapshot) returns the
file's contents as a single trimmed secret string; a missing file is an I/O
error propagated to the caller unmodified.  One call is one fresh read, so
the read is recorded in the returned trace. -/
def read_secret_file (p : NixPath) (fs : FS) : Except Err String × List NixPath :=
  (match fs p with
   | some contents => Except.ok contents.trim
   | none => Except.error Err.ioError,
   [p])

/-- A required pydantic field: missing field is a validation error. -/
def reqField (j : Json) (k : String) : Except Err Json :=
  match j.get k with
  | some v => Except.ok v
  | none => Except.error (Err.validation k)

/-- A pydantic field with a declared default: an omitted field takes the
default, a present field is validated. -/
def fieldD {α : Type} (j : Json) (k : String) (d : α) (p : Json → Except Err α) :
    Except Err α :=
  match j.get k with
  | some v => p v
  | none => Except.ok d

/-- Validate a `str` field. -/
def parseStr (k : String) : Json → Except Err String
  | .str s => Except.ok s
  | _ => Except.error (Err.validation k)

/-- Validate an `int` field. -/
def parseInt (k : String) : Json → Except Err Int
  | .num n => Except.ok n
  | _ => Except.error (Err.validation k)

/-- Validate a `bool` field. -/
def parseBool (k : String) : Json → Except Err Bool
  | .bool b => Except.ok b
  | _ => Except.error (Err.validation k)

/-- Validate a `Path` field (pydantic coerces a string to a path). -/
def parsePath (k : String) : Json → Except Err NixPath
  | .str s => Except.ok s
  | _ => Except.error (Err.validation k)

/-- Validate a nullable (`X | None`) field: JSON null becomes `none`. -/
def parseOpt {α : Type} (p : Json → Except Err α) : Json → Except Err (Option α)
  | .null => Except.ok none
  | v => (p v).map some

/-- Validate a `list[X]` field. -/
def parseList {α : Type} (p : Json → Except Err α) (k : String) :
    Json → Except Err (List α)
  | .arr elems => elems.mapM p
  | _ => Except.error (Err.validation k)

/-- Validate a `dict[str, X]` field, keeping entry order. -/
def parseStrDict {α : Type} (p : Json → Except Err α) (k : String) :
    Json → Except Err (List (String × α))
  | .obj entries => entries.mapM (fun kv => (p kv.2).map (fun a => (kv.1, a)))
  | _ => Except.error (Err.validation k)

/-- `class AuthBackendConfig(str, Enum)`: the closed enumeration of
authentication backends. -/
inductive AuthBackendConfig where
  | github
  | gitea
  | none
deriving DecidableEq

/-- Pydantic validation of an `AuthBackendConfig` value: exactly the three
member strings are accepted. -/
def parseAuthBackendConfig : Json → Except Err AuthBackendConfig
  | .str "github" => Except.ok AuthBackendConfig.github
  | .str "gitea" => Except.ok AuthBackendConfig.gitea
  | .str "none" => Except.ok AuthBackendConfig.none
  | _ => Except.error (Err.validation "auth_backend")

/-- `util.Secret(name)`: an opaque secret handle built from a file
reference, resolved by the CI engine at execution time.  The source passes
`self.signing_key_file` directly, so the reference may be `None`. -/
structure Secret where
  ref : Option NixPath
deriving DecidableEq

/-- `class CachixConfig(BaseModel)`. -/
structure CachixConfig where
  name : String
  signing_key_file : Option NixPath
  auth_token_file : Option NixPath
deriving DecidableEq

/-- Pydantic validation of `CachixConfig`; performs no filesystem access. -/
def parseCachixConfig (fs : FS) (j : Json) : Except Err CachixConfig := do
  let name ← reqField j "name" >>= parseStr "name"
  let signing_key_file ← reqField j "signing_key_file" >>= parseOpt (parsePath "signing_key_file")
  let auth_token_file ← reqField j "auth_token_file" >>= parseOpt (parsePath "auth_token_file")
  pure { name := name, signing_key_file := signing_key_file, auth_token_file := auth_token_file }

/-- `CachixConfig.signing_key`: raises `InternalError` when
`signing_key_file` is unset, otherwise reads the secret file. -/
def CachixConfig.signing_key (c : CachixConfig) (fs : FS) :
    Except Err String × List NixPath :=
  match c.signing_key_file with
  | none => (Except.error Err.internalError, [])
  | some p => read_secret_file p fs

/-- `CachixConfig.auth_token`: raises `InternalError` when `auth_token_file`
is unset, otherwise reads the secret file. -/
def CachixConfig.auth_token (c : CachixConfig) (fs : FS) :
    Except Err String × List NixPath :=
  match c.auth_token_file with
  | none => (Except.error Err.internalError, [])
  | some p => read_secret_file p fs

/-- `CachixConfig.environment`: builds the environment dict stepwise, with
`util.Secret(self.signing_key_file)` and `util.Secret(self.auth_token_file)`
inserted unconditionally — even when the underlying reference is `None`.
No secret file is read (the function does not consult the filesystem). -/
def CachixConfig.environment (c : CachixConfig) : List (String × Secret) :=
  let environment : List (String × Secret) := []
  let environment := environment ++ [("CACHIX_SIGNING_KEY", Secret.mk c.signing_key_file)]
  let environment := environment ++ [("CACHIX_AUTH_TOKEN", Secret.mk c.auth_token_file)]
  environment

/-- `class GiteaConfig(BaseModel)`. -/
structure GiteaConfig where
  instance_url : String
  topic : Option String
  token_file : NixPath
  webhook_secret_file : NixPath
  project_cache_file : NixPath
  oauth_id : Option String
  oauth_secret_file : Option NixPath
deriving DecidableEq

/-- Pydantic validation of `GiteaConfig`, with the declared field defaults;
performs no filesystem access. -/
def parseGiteaConfig (fs : FS) (j : Json) : Except Err GiteaConfig := do
  let instance_url ← reqField j "instance_url" >>= parseStr "instance_url"
  let topic ← reqField j "topic" >>= parseOpt (parseStr "topic")
  let token_file ← fieldD j "token_file" "gitea-token" (parsePath "token_file")
  let webhook_secret_file ← fieldD j "webhook_secret_file" "gitea-webhook-secret" (parsePath "webhook_secret_file")
  let project_cache_file ← fieldD j "project_cache_file" "gitea-project-cache.json" (parsePath "project_cache_file")
  let oauth_id ← reqField j "oauth_id" >>= parseOpt (parseStr "oauth_id")
  let oauth_secret_file ← reqField j "oauth_secret_file" >>= parseOpt (parsePath "oauth_secret_file")
  pure { instance_url := instance_url, topic := topic, token_file := token_file,
         webhook_secret_file := webhook_secret_file, project_cache_file := project_cache_file,
         oauth_id := oauth_id, oauth_secret_file := oauth_secret_file }

/-- `GiteaConfig.token`: reads the (always present) token file. -/
def GiteaConfig.token (g : GiteaConfig) (fs : FS) :
    Except Err String × List NixPath :=
  read_secret_file g.token_file fs

/-- `GiteaConfig.webhook_secret`: reads the webhook secret file. -/
def GiteaConfig.webhook_secret (g : GiteaConfig) (fs : FS) :
    Except Err String × List NixPath :=
  read_secret_file g.webhook_secret_file fs

/-- `GiteaConfig.oauth_secret`: raises `InternalError` when
`oauth_secret_file` is unset, otherwise reads the secret file. -/
def GiteaConfig.oauth_secret (g : GiteaConfig) (fs : FS) :
    Except Err String × List NixPath :=
  match g.oauth_secret_file with
  | none => (Except.error Err.internalError, [])
  | some p => read_secret_file p fs

/-- `class GitHubLegacyConfig(BaseModel)`: the personal-access-token shape. -/
structure GitHubLegacyConfig where
  token_file : NixPath
deriving DecidableEq

/-- Pydantic validation of `GitHubLegacyConfig`: the shape requires a
`token_file` path; extra input fields are ignored.  No filesystem access. -/
def parseGitHubLegacyConfig (fs : FS) (j : Json) : Except Err GitHubLegacyConfig := do
  let token_file ← reqField j "token_file" >>= parsePath "token_file"
  pure { token_file := token_file }

/-- `GitHubLegacyConfig.token`: reads the token file. -/
def GitHubLegacyConfig.token (g : GitHubLegacyConfig) (fs : FS) :
    Except Err String × List NixPath :=
  read_secret_file g.token_file fs

/-- `class GitHubAppConfig(BaseModel)`: the installation-based app shape. -/
structure GitHubAppConfig where
  id : Int
  secret_key_file : NixPath
  installation_token_map_file : NixPath
  project_id_map_file : NixPath
  jwt_token_map : NixPath
deriving DecidableEq

/-- Pydantic validation of `GitHubAppConfig`: the shape requires an `id` and
a `secret_key_file`; the map-file fields carry defaults.  No filesystem
access. -/
def parseGitHubAppConfig (fs : FS) (j : Json) : Except Err GitHubAppConfig := do
  let id ← reqField j "id" >>= parseInt "id"
  let secret_key_file ← reqField j "secret_key_file" >>= parsePath "secret_key_file"
  let installation_token_map_file ← fieldD j "installation_token_map_file"
    "github-app-installation-token-map.json" (parsePath "installation_token_map_file")
  let project_id_map_file ← fieldD j "project_id_map_file"
    "github-app-project-id-map-name.json" (parsePath "project_id_map_file")
  let jwt_token_map ← fieldD j "jwt_token_map" "github-app-jwt-token" (parsePath "jwt_token_map")
  pure { id := id, secret_key_file := secret_key_file,
         installation_token_map_file := installation_token_map_file,
         project_id_map_file := project_id_map_file, jwt_token_map := jwt_token_map }

/-- `GitHubAppConfig.secret_key`: reads the app's secret key file. -/
def GitHubAppConfig.secret_key (g : GitHubAppConfig) (fs : FS) :
    Except Err String × List NixPath :=
  read_secret_file g.secret_key_file fs

/-- The two-variant union annotated as
`auth_type: GitHubLegacyConfig | GitHubAppConfig`. -/
inductive GitHubAuthType where
  | legacy (c : GitHubLegacyConfig)
  | app (c : GitHubAppConfig)
deriving DecidableEq

/-- Validation of the `auth_type` union: the members are tried in the fixed
order of the annotation and the first structural match wins (the validation
library's left-to-right union resolution). -/
def parseGitHubAuthType (fs : FS) (j : Json) : Except Err GitHubAuthType :=
  match parseGitHubLegacyConfig fs j with
  | Except.ok c => Except.ok (GitHubAuthType.legacy c)
  | Except.error _ =>
    match parseGitHubAppConfig fs j with
    | Except.ok c => Except.ok (GitHubAuthType.app c)
    | Except.error e => Except.error e

/-- `class GitHubConfig(BaseModel)`. -/
structure GitHubConfig where
  auth_type : GitHubAuthType
  topic : Option String
  project_cache_file : NixPath
  webhook_secret_file : NixPath
  oauth_id : Option String
  oauth_secret_file : Option NixPath
deriving DecidableEq

/-- Pydantic validation of `GitHubConfig`, with the declared field defaults;
performs no filesystem access. -/
def parseGitHubConfig (fs : FS) (j : Json) : Except Err GitHubConfig := do
  let auth_type ← reqField j "auth_type" >>= parseGitHubAuthType fs
  let topic ← reqField j "topic" >>= parseOpt (parseStr "topic")
  let project_cache_file ← fieldD j "project_cache_file" "github-project-cache-v1.json" (parsePath "project_cache_file")
  let webhook_secret_file ← fieldD j "webhook_secret_file" "github-webhook-secret" (parsePath "webhook_secret_file")
  let oauth_id ← reqField j "oauth_id" >>= parseOpt (parseStr "oauth_id")
  let oauth_secret_file ← reqField j "oauth_secret_file" >>= parseOpt (parsePath "oauth_secret_file")
  pure { auth_type := auth_type, topic := topic, project_cache_file := project_cache_file,
         webhook_secret_file := webhook_secret_file, oauth_id := oauth_id,
         oauth_secret_file := oauth_secret_file }

/-- `GitHubConfig.webhook_secret`: reads the webhook secret file. -/
def GitHubConfig.webhook_secret (g : GitHubConfig) (fs : FS) :
    Except Err String × List NixPath :=
  read_secret_file g.webhook_secret_file fs

/-- `GitHubConfig.oauth_secret`: raises `InternalError` when
`oauth_secret_file` is unset, otherwise reads the secret file. -/
def GitHubConfig.oauth_secret (g : GitHubConfig) (fs : FS) :
    Except Err String × List NixPath :=
  match g.oauth_secret_file with
  | none => (Except.error Err.internalError, [])
  | some p => read_secret_file p fs

/-- `class Interpolate(BaseModel)`: the in-memory field is `nix_type`, its
wire name (validation alias) is `_type`, and `populate_by_name=True` also
admits the in-memory name on input. -/
structure Interpolate where
  nix_type : String
  value : String
deriving DecidableEq

/-- Look a field up first under its wire alias, then (because
`populate_by_name=True`) under its in-memory name. -/
def aliasedField (j : Json) (wireKey fieldName : String) : Except Err Json :=
  match j.get wireKey with
  | some v => Except.ok v
  | none =>
    match j.get fieldName with
    | some v => Except.ok v
    | none => Except.error (Err.validation fieldName)

/-- Pydantic validation of `Interpolate`: the discriminator is read from the
wire key or the field name, and `value` is required. -/
def parseInterpolate (j : Json) : Except Err Interpolate := do
  let nix_type ← aliasedField j "_type" "nix_type" >>= parseStr "nix_type"
  let value ← reqField j "value" >>= parseStr "value"
  pure { nix_type := nix_type, value := value }

/-- Serialization of `Interpolate` (`model_dump`): the discriminator field
is emitted under its wire name only when `byAlias` is set; plain
serialization uses the in-memory field name. -/
def Interpolate.model_dump (i : Interpolate) (byAlias : Bool) : Json :=
  Json.obj [(if byAlias then "_type" else "nix_type", Json.str i.nix_type),
            ("value", Json.str i.value)]

/-- A value of the union `str | Interpolate`. -/
inductive StrOrInterpolate where
  | str (s : String)
  | interp (i : Interpolate)
deriving DecidableEq

/-- Validation of `str | Interpolate`: a JSON string is the literal variant,
a JSON object is validated as an `Interpolate`. -/
def parseStrOrInterpolate (k : String) : Json → Except Err StrOrInterpolate
  | .str s => Except.ok (StrOrInterpolate.str s)
  | j@(.obj _) => (parseInterpolate j).map StrOrInterpolate.interp
  | _ => Except.error (Err.validation k)

/-- A value in an executable build step: either a literal string or the
execution engine's interpolation primitive `util.Interpolate(expr)`. -/
inductive StepValue where
  | str (s : String)
  | interpolate (expr : String)
deriving DecidableEq

/-- `steps.ShellCommand(name=..., env=..., command=...)`: the executable
build step handed to the CI engine. -/
structure ShellCommand where
  name : String
  env : List (String × StepValue)
  command : List StepValue
deriving DecidableEq

/-- `class PostBuildStep(BaseModel)`. -/
structure PostBuildStep where
  name : String
  environment : List (String × StrOrInterpolate)
  command : List StrOrInterpolate
deriving DecidableEq

/-- Pydantic validation of `PostBuildStep`. -/
def parsePostBuildStep (j : Json) : Except Err PostBuildStep := do
  let name ← reqField j "name" >>= parseStr "name"
  let environment ← reqField j "environment" >>= parseStrDict (parseStrOrInterpolate "environment") "environment"
  let command ← reqField j "command" >>= parseList (parseStrOrInterpolate "command") "command"
  pure { name := name, environment := environment, command := command }

/-- The local helper `maybe_interpolate` of `to_buildstep`: a literal string
maps to itself, an `Interpolate` maps to `util.Interpolate(value.value)`. -/
def maybe_interpolate : StrOrInterpolate → StepValue
  | .str s => StepValue.str s
  | .interp i => StepValue.interpolate i.value

/-- `PostBuildStep.to_buildstep`.  Note the source's env comprehension is
`for k in self.environment`, which iterates the dict's keys and applies
`maybe_interpolate` to the key `k` itself — a `str` — not to the value bound
to it; the command list is translated element-wise as expected. -/
def PostBuildStep.to_buildstep (s : PostBuildStep) : ShellCommand :=
  { name := s.name,
    env := s.environment.map (fun kv => (kv.1, maybe_interpolate (StrOrInterpolate.str kv.1))),
    command := s.command.map maybe_interpolate }

/-- `class BuildbotNixConfig(BaseModel)`: the root aggregate. -/
structure BuildbotNixConfig where
  db_url : String
  auth_backend : AuthBackendConfig
  build_retries : Int
  cachix : Option CachixConfig
  gitea : Option GiteaConfig
  github : Option GitHubConfig
  admins : List String
  workers_file : NixPath
  build_systems : List String
  eval_max_memory_size : Int
  eval_worker_count : Option Int
  nix_workers_secret_file : NixPath
  domain : String
  webhook_base_url : String
  use_https : Bool
  outputs_path : Option NixPath
  url : String
  post_build_steps : List PostBuildStep
  job_report_limit : Option Int
deriving DecidableEq

/-- Pydantic validation of the root `BuildbotNixConfig`, fields in source
order; performs no filesystem access. -/
def parseBuildbotNixConfig (fs : FS) (j : Json) : Except Err BuildbotNixConfig := do
  let db_url ← reqField j "db_url" >>= parseStr "db_url"
  let auth_backend ← reqField j "auth_backend" >>= parseAuthBackendConfig
  let build_retries ← reqField j "build_retries" >>= parseInt "build_retries"
  let cachix ← reqField j "cachix" >>= parseOpt (parseCachixConfig fs)
  let gitea ← reqField j "gitea" >>= parseOpt (parseGiteaConfig fs)
  let github ← reqField j "github" >>= parseOpt (parseGitHubConfig fs)
  let admins ← reqField j "admins" >>= parseList (parseStr "admins") "admins"
  let workers_file ← reqField j "workers_file" >>= parsePath "workers_file"
  let build_systems ← reqField j "build_systems" >>= parseList (parseStr "build_systems") "build_systems"
  let eval_max_memory_size ← reqField j "eval_max_memory_size" >>= parseInt "eval_max_memory_size"
  let eval_worker_count ← reqField j "eval_worker_count" >>= parseOpt (parseInt "eval_worker_count")
  let nix_workers_secret_file ← fieldD j "nix_workers_secret_file" "buildbot-nix-workers" (parsePath "nix_workers_secret_file")
  let domain ← reqField j "domain" >>= parseStr "domain"
  let webhook_base_url ← reqField j "webhook_base_url" >>= parseStr "webhook_base_url"
  let use_https ← reqField j "use_https" >>= parseBool "use_https"
  let outputs_path ← reqField j "outputs_path" >>= parseOpt (parsePath "outputs_path")
  let url ← reqField j "url" >>= parseStr "url"
  let post_build_steps ← reqField j "post_build_steps" >>= parseList parsePostBuildStep "post_build_steps"
  let job_report_limit ← reqField j "job_report_limit" >>= parseOpt (parseInt "job_report_limit")
  pure { db_url := db_url, auth_backend := auth_backend, build_retries := build_retries,
         cachix := cachix, gitea := gitea, github := github, admins := admins,
         workers_file := workers_file, build_systems := build_systems,
         eval_max_memory_size := eval_max_memory_size, eval_worker_count := eval_worker_count,
         nix_workers_secret_file := nix_workers_secret_file, domain := domain,
         webhook_base_url := webhook_base_url, use_https := use_https,
         outputs_path := outputs_path, url := url, post_build_steps := post_build_steps,
         job_report_limit := job_report_limit }

/-- `BuildbotNixConfig.nix_workers_secret`: reads the workers secret file. -/
def BuildbotNixConfig.nix_workers_secret (c : BuildbotNixConfig) (fs : FS) :
    Except Err String × List NixPath :=
  read_secret_file c.nix_workers_secret_file fs

/-- An empty filesystem, used to evaluate concrete examples. -/
def fsEmpty : FS := fun _ => none

/-- The spec's §8 Cachix example: `signing_key_file` unset,
`auth_token_file` set. -/
def cachixHalfSet : CachixConfig :=
  { name := "mycache", signing_key_file := none, auth_token_file := some "/run/secrets/tok" }

/-- A Cachix block with both optional secret references unset. -/
def cachixUnset : CachixConfig :=
  { name := "mycache", signing_key_file := none, auth_token_file := none }

/-- A Gitea block whose OAuth secret reference is unset. -/
def giteaUnset : GiteaConfig :=
  { instance_url := "https://gitea.example.com", topic := none,
    token_file := "gitea-token", webhook_secret_file := "gitea-webhook-secret",
    project_cache_file := "gitea-project-cache.json", oauth_id := none,
    oauth_secret_file := none }

/-- A GitHub block whose OAuth secret reference is unset. -/
def githubUnset : GitHubConfig :=
  { auth_type := GitHubAuthType.legacy { token_file := "github-token" }, topic := none,
    project_cache_file := "github-project-cache-v1.json",
    webhook_secret_file := "github-webhook-secret", oauth_id := none,
    oauth_secret_file := none }

/-- The spec's §8 post-build-step example, with an additional interpolated
environment binding to exercise the environment translation. -/
def stepEcho : PostBuildStep :=
  { name := "echo-revision",
    environment := [("FOO", StrOrInterpolate.interp { nix_type := "Interpolate", value := "prop:x" })],
    command := [StrOrInterpolate.str "echo",
                StrOrInterpolate.interp { nix_type := "Interpolate", value := "prop:revision" }] }

/-- An `auth_type` document satisfying only the legacy shape. -/
def jLegacyOnly : Json := Json.obj [("token_file", Json.str "github-token")]

/-- An `auth_type` document satisfying only the app shape. -/
def jAppOnly : Json :=
  Json.obj [("id", Json.num 42), ("secret_key_file", Json.str "github-app-key.pem")]

/-- An `auth_type` document satisfying neither shape. -/
def jNeither : Json := Json.obj [("comment", Json.str "nothing useful")]

/-- An `auth_type` document satisfying both shapes at once. -/
def jBothShapes : Json :=
  Json.obj [("token_file", Json.str "github-token"), ("id", Json.num 42),
            ("secret_key_file", Json.str "github-app-key.pem")]

/-- A root document whose `auth_backend` value is outside the enumeration. -/
def jBadBackend : Json := Json.obj [("auth_backend", Json.str "mystery")]

/-- A root document whose `auth_backend` value is the member `github`. -/
def jGithubBackend : Json := Json.obj [("auth_backend", Json.str "github")]

/-- A Gitea document omitting every defaulted field. -/
def jGiteaDefaults : Json :=
  Json.obj [("instance_url", Json.str "https://gitea.example.com"), ("topic", Json.null),
            ("oauth_id", Json.null), ("oauth_secret_file", Json.null)]

/-- A GitHub document omitting every defaulted field. -/
def jGitHubDefaults : Json :=
  Json.obj [("auth_type", jLegacyOnly), ("topic", Json.null),
            ("oauth_id", Json.null), ("oauth_secret_file", Json.null)]

/-- A GitHub App document omitting every defaulted field. -/
def jAppDefaults : Json := jAppOnly

/-- A complete, valid root document omitting every defaulted field, with
backend `none` and all optional blocks null. -/
def jRootDefaults : Json :=
  Json.obj [("db_url", Json.str "postgresql://db"), ("auth_backend", Json.str "none"),
            ("build_retries", Json.num 1), ("cachix", Json.null), ("gitea", Json.null),
            ("github", Json.null), ("admins", Json.arr []),
            ("workers_file", Json.str "workers.json"),
            ("build_systems", Json.arr [Json.str "x86_64-linux"]),
            ("eval_max_memory_size", Json.num 2048), ("eval_worker_count", Json.null),
            ("domain", Json.str "ci.example.com"),
            ("webhook_base_url", Json.str "https://ci.example.com"),
            ("use_https", Json.bool true), ("outputs_path", Json.null),
            ("url", Json.str "https://ci.example.com"), ("post_build_steps", Json.arr []),
            ("job_report_limit", Json.null)]

/-- A complete, valid root document selecting `auth_backend = "github"`
while leaving the `github` block null. -/
def jRootGithubNull : Json :=
  Json.obj [("db_url", Json.str "postgresql://db"), ("auth_backend", Json.str "github"),
            ("build_retries", Json.num 1), ("cachix", Json.null), ("gitea", Json.null),
            ("github", Json.null), ("admins", Json.arr []),
            ("workers_file", Json.str "workers.json"),
            ("build_systems", Json.arr [Json.str "x86_64-linux"]),
            ("eval_max_memory_size", Json.num 2048), ("eval_worker_count", Json.null),
            ("nix_workers_secret_file", Json.str "buildbot-nix-workers"),
            ("domain", Json.str "ci.example.com"),
            ("webhook_base_url", Json.str "https://ci.example.com"),
            ("use_https", Json.bool true), ("outputs_path", Json.null),
            ("url", Json.str "https://ci.example.com"), ("post_build_steps", Json.arr []),
            ("job_report_limit", Json.null)]

/-- A complete, valid root document selecting `auth_backend = "gitea"`
while leaving the `gitea` block null. -/
def jRootGiteaNull : Json :=
  Json.obj [("db_url", Json.str "postgresql://db"), ("auth_backend", Json.str "gitea"),
            ("build_retries", Json.num 1), ("cachix", Json.null), ("gitea", Json.null),
            ("github", Json.null), ("admins", Json.arr []),
            ("workers_file", Json.str "workers.json"),
            ("build_systems", Json.arr [Json.str "x86_64-linux"]),
            ("eval_max_memory_size", Json.num 2048), ("eval_worker_count", Json.null),
            ("nix_workers_secret_file", Json.str "buildbot-nix-workers"),
            ("domain", Json.str "ci.example.com"),
            ("webhook_base_url", Json.str "https://ci.example.com"),
            ("use_https", Json.bool true), ("outputs_path", Json.null),
            ("url", Json.str "https://ci.example.com"), ("post_build_steps", Json.arr []),
            ("job_report_limit", Json.null)]

/-- The GitHub App block parsed from `jAppDefaults`: the two map-file
fields and the JWT token map carry their declared defaults. -/
def githubAppDefaults : GitHubAppConfig :=
  { id := 42, secret_key_file := "github-app-key.pem",
    installation_token_map_file := "github-app-installation-token-map.json",
    project_id_map_file := "github-app-project-id-map-name.json",
    jwt_token_map := "github-app-jwt-token" }

/-- The root configuration parsed from `jRootDefaults`: the omitted
`nix_workers_secret_file` carries its declared default. -/
def rootDefaults : BuildbotNixConfig :=
  { db_url := "postgresql://db", auth_backend := AuthBackendConfig.none, build_retries := 1,
    cachix := none, gitea := none, github := none, admins := [],
    workers_file := "workers.json", build_systems := ["x86_64-linux"],
    eval_max_memory_size := 2048, eval_worker_count := none,
    nix_workers_secret_file := "buildbot-nix-workers", domain := "ci.example.com",
    webhook_base_url := "https://ci.example.com", use_https := true, outputs_path := none,
    url := "https://ci.example.com", post_build_steps := [], job_report_limit := none }

/-- Inversion of a successful monadic bind in `Except`. -/
theorem except_bind_ok {ε α β : Type} {x : Except ε α} {f : α → Except ε β} {b : β} :
    x >>= f = Except.ok b ↔ ∃ a, x = Except.ok a ∧ f a = Except.ok b := by
  cases x <;> simp [Bind.bind, Except.bind]

/-- `pure` in the `Except` monad is `Except.ok`. -/
theorem except_pure_eq_ok {ε α : Type} (a : α) : (pure a : Except ε α) = Except.ok a := rfl

/-- Claim C1: at the failing input `stepEcho`, `to_buildstep` translates the
command list element-wise exactly as the claim states (literal `"echo"`
first, deferred interpolation of `"prop:revision"` second), but the
environment maps the variable name `FOO` to the literal `FOO` — the
translation of the key — instead of the translation of its bound value,
which would be the deferred interpolation of `prop:x`.  This is the env
comprehension iterating dict keys and feeding the key, not the value, to
`maybe_interpolate`. -/
theorem to_buildstep_env_translates_keys_not_values :
    stepEcho.to_buildstep.command =
      [StepValue.str "echo", StepValue.interpolate "prop:revision"] ∧
    stepEcho.to_buildstep.env = [("FOO", StepValue.str "FOO")] ∧
    stepEcho.to_buildstep.env ≠ [("FOO", StepValue.interpolate "prop:x")] := by
  refine ⟨rfl, rfl, ?_⟩
  decide

/-- Claim C2: each lazy secret accessor whose backing optional file
reference is unset fails with the internal-consistency error, so in
particular it never produces a default or empty string. -/
theorem unset_secret_accessor_fails (c : CachixConfig) (g : GiteaConfig)
    (gh : GitHubConfig) (fs : FS) :
    (c.signing_key_file = none → (c.signing_key fs).1 = Except.error Err.internalError) ∧
    (c.auth_token_file = none → (c.auth_token fs).1 = Except.error Err.internalError) ∧
    (g.oauth_secret_file = none → (g.oauth_secret fs).1 = Except.error Err.internalError) ∧
    (gh.oauth_secret_file = none → (gh.oauth_secret fs).1 = Except.error Err.internalError) := by
  refine ⟨fun h => ?_, fun h => ?_, fun h => ?_, fun h => ?_⟩ <;>
    simp [CachixConfig.signing_key, CachixConfig.auth_token,
          GiteaConfig.oauth_secret, GitHubConfig.oauth_secret, h]

/-- Witness for claim C2: concrete configurations with unset references,
evaluated on the empty filesystem. -/
theorem unset_secret_accessor_fails_witness :
    (cachixUnset.signing_key fsEmpty).1 = Except.error Err.internalError ∧
    (cachixUnset.auth_token fsEmpty).1 = Except.error Err.internalError ∧
    (giteaUnset.oauth_secret fsEmpty).1 = Except.error Err.internalError ∧
    (githubUnset.oauth_secret fsEmpty).1 = Except.error Err.internalError :=
  ⟨(unset_secret_accessor_fails cachixUnset giteaUnset githubUnset fsEmpty).1 rfl,
   (unset_secret_accessor_fails cachixUnset giteaUnset githubUnset fsEmpty).2.1 rfl,
   (unset_secret_accessor_fails cachixUnset giteaUnset githubUnset fsEmpty).2.2.1 rfl,
   (unset_secret_accessor_fails cachixUnset giteaUnset githubUnset fsEmpty).2.2.2 rfl⟩

/-- Counterexample to claim C3: on the spec's own example input —
`signing_key_file` unset, `auth_token_file` set — `environment` neither
fails nor returns only the auth-token handle: it returns a two-entry
mapping whose `CACHIX_SIGNING_KEY` entry is a handle backed by the unset
(`none`) reference. -/
theorem cachix_environment_exposes_unset_handle :
    cachixHalfSet.environment =
      [("CACHIX_SIGNING_KEY", Secret.mk none),
       ("CACHIX_AUTH_TOKEN", Secret.mk (some "/run/secrets/tok"))] ∧
    ("CACHIX_SIGNING_KEY", Secret.mk none) ∈ cachixHalfSet.environment := by
  refine ⟨rfl, ?_⟩
  decide

/-- Claim C3 as amended: `environment` never fails and returns a mapping
with exactly the two entries `CACHIX_SIGNING_KEY` and `CACHIX_AUTH_TOKEN`,
each an opaque secret handle built from the corresponding file reference —
including a handle built from an unset reference.  It exposes handles only,
never resolved values, and performs no secret-file read (it is a pure
function of the configuration, never consulting the filesystem). -/
theorem cachix_environment_both_handles (c : CachixConfig) :
    c.environment =
      [("CACHIX_SIGNING_KEY", Secret.mk c.signing_key_file),
       ("CACHIX_AUTH_TOKEN", Secret.mk c.auth_token_file)] := rfl

/-- Claim C4: resolution of the `auth_type` union is structural with a
fixed left-to-right order: an input accepted by the legacy shape resolves
to the legacy variant (so in particular legacy-shape-only input does, and
the tie-break on input satisfying both shapes is the fixed deterministic
choice of the legacy variant); input accepted only by the app shape
resolves to the app variant; input satisfying neither shape fails. -/
theorem github_auth_type_structural_resolution (fs : FS) (j : Json) :
    ((parseGitHubLegacyConfig fs j).isOk = true →
       parseGitHubAuthType fs j =
         (parseGitHubLegacyConfig fs j).map GitHubAuthType.legacy) ∧
    ((parseGitHubLegacyConfig fs j).isOk = false →
       (parseGitHubAppConfig fs j).isOk = true →
       parseGitHubAuthType fs j =
         (parseGitHubAppConfig fs j).map GitHubAuthType.app) ∧
    ((parseGitHubLegacyConfig fs j).isOk = false →
       (parseGitHubAppConfig fs j).isOk = false →
       (parseGitHubAuthType fs j).isOk = false) := by
  refine ⟨fun hl => ?_, fun hl ha => ?_, fun hl ha => ?_⟩ <;>
    cases hleg : parseGitHubLegacyConfig fs j <;>
      cases happ : parseGitHubAppConfig fs j <;>
        simp_all [parseGitHubAuthType, Except.isOk, Except.toBool, Except.map]

/-- Witness for claim C4: the four concrete shape situations — legacy-only,
app-only, neither, and both at once. -/
theorem github_auth_type_structural_resolution_witness :
    parseGitHubAuthType fsEmpty jLegacyOnly =
      (parseGitHubLegacyConfig fsEmpty jLegacyOnly).map GitHubAuthType.legacy ∧
    parseGitHubAuthType fsEmpty jAppOnly =
      (parseGitHubAppConfig fsEmpty jAppOnly).map GitHubAuthType.app ∧
    (parseGitHubAuthType fsEmpty jNeither).isOk = false ∧
    parseGitHubAuthType fsEmpty jBothShapes =
      (parseGitHubLegacyConfig fsEmpty jBothShapes).map GitHubAuthType.legacy :=
  ⟨(github_auth_type_structural_resolution fsEmpty jLegacyOnly).1 rfl,
   (github_auth_type_structural_resolution fsEmpty jAppOnly).2.1 rfl rfl,
   (github_auth_type_structural_resolution fsEmpty jNeither).2.2 rfl rfl,
   (github_auth_type_structural_resolution fsEmpty jBothShapes).1 rfl⟩

/-- Claim C6: serializing an `Interpolate` with alias-mode enabled emits the
discriminator under the wire key and re-parsing restores the original
value; serializing without alias-mode does not reproduce the wire key
(the dumped object has no field named after it) — the compatibility gap the
source documents in the comment above the class. -/
theorem interpolate_alias_roundtrip (i : Interpolate) :
    parseInterpolate (i.model_dump true) = Except.ok i ∧
    (i.model_dump false).get "_type" = none :=
  ⟨rfl, rfl⟩

/-- Claim C10: the `Interpolate` discriminator is accepted under the wire
key and, thanks to population by field name, equally under the in-memory
field name, with identical parse results. -/
theorem interpolate_discriminator_by_alias_or_name (t v : String) :
    parseInterpolate (Json.obj [("_type", Json.str t), ("value", Json.str v)]) =
      Except.ok { nix_type := t, value := v } ∧
    parseInterpolate (Json.obj [("nix_type", Json.str t), ("value", Json.str v)]) =
      Except.ok { nix_type := t, value := v } :=
  ⟨rfl, rfl⟩

/-- Claim C5: the root configuration rejects any document whose
`auth_backend` field carries a string outside the closed enumeration —
whatever the rest of the document looks like — while each of the three
member strings is accepted by the field's validator. -/
theorem auth_backend_closed_enum (fs : FS) (j : Json) (s : String)
    (hj : j.get "auth_backend" = some (Json.str s)) :
    (s ≠ "github" ∧ s ≠ "gitea" ∧ s ≠ "none" →
       ∀ c, parseBuildbotNixConfig fs j ≠ Except.ok c) ∧
    ((s = "github" ∨ s = "gitea" ∨ s = "none") →
       (parseAuthBackendConfig (Json.str s)).isOk = true) := by
  constructor
  · rintro ⟨h1, h2, h3⟩ c hc
    simp only [parseBuildbotNixConfig, except_bind_ok] at hc
    obtain ⟨db, -, ab, ⟨v, hv, hab⟩, -⟩ := hc
    simp only [reqField, hj] at hv
    obtain rfl : Json.str s = v := by
      cases hv
      rfl
    unfold parseAuthBackendConfig at hab
    split at hab <;> simp_all
  · rintro (rfl | rfl | rfl) <;> rfl

/-- Witness for claim C5: the value `mystery` is rejected by the root
parse, the member value `github` is accepted by the field validator. -/
theorem auth_backend_closed_enum_witness :
    (∀ c, parseBuildbotNixConfig fsEmpty jBadBackend ≠ Except.ok c) ∧
    (parseAuthBackendConfig (Json.str "github")).isOk = true :=
  ⟨(auth_backend_closed_enum fsEmpty jBadBackend "mystery" rfl).1 (by decide),
   (auth_backend_closed_enum fsEmpty jGithubBackend "github" rfl).2 (Or.inl rfl)⟩

/-- Claim C7: whenever validation succeeds on a document that omits a
defaulted field, the parsed object carries the documented default for that
field; stated for all eight documented defaults across the Gitea, GitHub,
GitHub App and root models. -/
theorem omitted_defaulted_fields (fs : FS) (jg jgh ja jr : Json)
    (g : GiteaConfig) (gh : GitHubConfig) (a : GitHubAppConfig) (r : BuildbotNixConfig) :
    (parseGiteaConfig fs jg = Except.ok g →
       (jg.get "token_file" = none → g.token_file = "gitea-token") ∧
       (jg.get "webhook_secret_file" = none → g.webhook_secret_file = "gitea-webhook-secret") ∧
       (jg.get "project_cache_file" = none → g.project_cache_file = "gitea-project-cache.json")) ∧
    (parseGitHubConfig fs jgh = Except.ok gh →
       (jgh.get "project_cache_file" = none → gh.project_cache_file = "github-project-cache-v1.json") ∧
       (jgh.get "webhook_secret_file" = none → gh.webhook_secret_file = "github-webhook-secret")) ∧
    (parseGitHubAppConfig fs ja = Except.ok a →
       (ja.get "installation_token_map_file" = none →
          a.installation_token_map_file = "github-app-installation-token-map.json") ∧
       (ja.get "project_id_map_file" = none →
          a.project_id_map_file = "github-app-project-id-map-name.json")) ∧
    (parseBuildbotNixConfig fs jr = Except.ok r →
       (jr.get "nix_workers_secret_file" = none →
          r.nix_workers_secret_file = "buildbot-nix-workers")) := by
  refine ⟨fun hp => ?_, fun hp => ?_, fun hp => ?_, fun hp => ?_⟩
  · simp only [parseGiteaConfig, except_bind_ok, except_pure_eq_ok, Except.ok.injEq] at hp
    obtain ⟨iu, -, tp, -, tf, htf, ws, hws, pc, hpc, oi, -, osf, -, hg⟩ := hp
    subst hg
    refine ⟨fun hget => ?_, fun hget => ?_, fun hget => ?_⟩
    · simp only [fieldD, hget, Except.ok.injEq] at htf
      exact htf.symm
    · simp only [fieldD, hget, Except.ok.injEq] at hws
      exact hws.symm
    · simp only [fieldD, hget, Except.ok.injEq] at hpc
      exact hpc.symm
  · simp only [parseGitHubConfig, except_bind_ok, except_pure_eq_ok, Except.ok.injEq] at hp
    obtain ⟨at1, -, tp, -, pc, hpc, ws, hws, oi, -, osf, -, hgh⟩ := hp
    subst hgh
    refine ⟨fun hget => ?_, fun hget => ?_⟩
    · simp only [fieldD, hget, Except.ok.injEq] at hpc
      exact hpc.symm
    · simp only [fieldD, hget, Except.ok.injEq] at hws
      exact hws.symm
  · simp only [parseGitHubAppConfig, except_bind_ok, except_pure_eq_ok, Except.ok.injEq] at hp
    obtain ⟨i1, -, sk, -, itm, hitm, pim, hpim, jtm, -, ha⟩ := hp
    subst ha
    refine ⟨fun hget => ?_, fun hget => ?_⟩
    · simp only [fieldD, hget, Except.ok.injEq] at hitm
      exact hitm.symm
    · simp only [fieldD, hget, Except.ok.injEq] at hpim
      exact hpim.symm
  · simp only [parseBuildbotNixConfig, except_bind_ok, except_pure_eq_ok, Except.ok.injEq] at hp
    obtain ⟨db, -, ab, -, br, -, cx, -, gt1, -, gh1, -, ad, -, wf, -, bs, -, ems, -, ewc, -,
            nw, hnw, dm, -, wbu, -, uh, -, op, -, u1, -, ps, -, jl, -, hr⟩ := hp
    subst hr
    intro hget
    simp only [fieldD, hget, Except.ok.injEq] at hnw
    exact hnw.symm

/-- Witness for claim C7: the four concrete documents that omit every
defaulted field parse to objects carrying exactly the documented
defaults. -/
theorem omitted_defaulted_fields_witness :
    giteaUnset.token_file = "gitea-token" ∧
    giteaUnset.webhook_secret_file = "gitea-webhook-secret" ∧
    giteaUnset.project_cache_file = "gitea-project-cache.json" ∧
    githubUnset.project_cache_file = "github-project-cache-v1.json" ∧
    githubUnset.webhook_secret_file = "github-webhook-secret" ∧
    githubAppDefaults.installation_token_map_file = "github-app-installation-token-map.json" ∧
    githubAppDefaults.project_id_map_file = "github-app-project-id-map-name.json" ∧
    rootDefaults.nix_workers_secret_file = "buildbot-nix-workers" := by
  have T := omitted_defaulted_fields fsEmpty jGiteaDefaults jGitHubDefaults jAppDefaults
    jRootDefaults giteaUnset githubUnset githubAppDefaults rootDefaults
  exact ⟨(T.1 rfl).1 rfl, (T.1 rfl).2.1 rfl, (T.1 rfl).2.2 rfl,
         (T.2.1 rfl).1 rfl, (T.2.1 rfl).2 rfl,
         (T.2.2.1 rfl).1 rfl, (T.2.2.1 rfl).2 rfl,
         T.2.2.2 rfl rfl⟩

/-- Claim C8: validation of every configuration model is independent of the
filesystem — no secret file is consulted during construction — while every
lazy secret accessor, once invoked, reads exactly its backing secret file
(and reads nothing when its backing optional reference is unset, failing
instead). -/
theorem construction_performs_no_secret_read :
    (∀ (fs fs' : FS) (j : Json), parseCachixConfig fs j = parseCachixConfig fs' j) ∧
    (∀ (fs fs' : FS) (j : Json), parseGiteaConfig fs j = parseGiteaConfig fs' j) ∧
    (∀ (fs fs' : FS) (j : Json), parseGitHubLegacyConfig fs j = parseGitHubLegacyConfig fs' j) ∧
    (∀ (fs fs' : FS) (j : Json), parseGitHubAppConfig fs j = parseGitHubAppConfig fs' j) ∧
    (∀ (fs fs' : FS) (j : Json), parseGitHubConfig fs j = parseGitHubConfig fs' j) ∧
    (∀ (fs fs' : FS) (j : Json), parseBuildbotNixConfig fs j = parseBuildbotNixConfig fs' j) ∧
    (∀ (c : CachixConfig) (fs : FS),
       (c.signing_key fs).2 = (match c.signing_key_file with | some p => [p] | none => [])) ∧
    (∀ (c : CachixConfig) (fs : FS),
       (c.auth_token fs).2 = (match c.auth_token_file with | some p => [p] | none => [])) ∧
    (∀ (g : GiteaConfig) (fs : FS), (g.token fs).2 = [g.token_file]) ∧
    (∀ (g : GiteaConfig) (fs : FS), (g.webhook_secret fs).2 = [g.webhook_secret_file]) ∧
    (∀ (g : GiteaConfig) (fs : FS),
       (g.oauth_secret fs).2 = (match g.oauth_secret_file with | some p => [p] | none => [])) ∧
    (∀ (g : GitHubLegacyConfig) (fs : FS), (g.token fs).2 = [g.token_file]) ∧
    (∀ (g : GitHubAppConfig) (fs : FS), (g.secret_key fs).2 = [g.secret_key_file]) ∧
    (∀ (g : GitHubConfig) (fs : FS), (g.webhook_secret fs).2 = [g.webhook_secret_file]) ∧
    (∀ (g : GitHubConfig) (fs : FS),
       (g.oauth_secret fs).2 = (match g.oauth_secret_file with | some p => [p] | none => [])) ∧
    (∀ (c : BuildbotNixConfig) (fs : FS),
       (c.nix_workers_secret fs).2 = [c.nix_workers_secret_file]) := by
  refine ⟨fun fs fs' j => rfl, fun fs fs' j => rfl, fun fs fs' j => rfl,
          fun fs fs' j => rfl, fun fs fs' j => rfl, fun fs fs' j => rfl,
          fun c fs => ?_, fun c fs => ?_, fun g fs => rfl, fun g fs => rfl,
          fun g fs => ?_, fun g fs => rfl, fun g fs => rfl, fun g fs => rfl,
          fun g fs => ?_, fun c fs => rfl⟩
  · rcases hc : c.signing_key_file with _ | p <;>
      simp [CachixConfig.signing_key, read_secret_file, hc]
  · rcases hc : c.auth_token_file with _ | p <;>
      simp [CachixConfig.auth_token, read_secret_file, hc]
  · rcases hg : g.oauth_secret_file with _ | p <;>
      simp [GiteaConfig.oauth_secret, read_secret_file, hg]
  · rcases hg : g.oauth_secret_file with _ | p <;>
      simp [GitHubConfig.oauth_secret, read_secret_file, hg]

/-- Claim C9: the schema does not enforce mutual consistency between
`auth_backend` and the optional per-forge blocks: a complete document with
`auth_backend = "github"` and `github = null` parses successfully, and
likewise with `auth_backend = "gitea"` and `gitea = null`. -/
theorem root_backend_and_blocks_not_mutually_validated :
    (∃ c, parseBuildbotNixConfig fsEmpty jRootGithubNull = Except.ok c ∧
          c.auth_backend = AuthBackendConfig.github ∧ c.github = none) ∧
    (∃ c, parseBuildbotNixConfig fsEmpty jRootGiteaNull = Except.ok c ∧
          c.auth_backend = AuthBackendConfig.gitea ∧ c.gitea = none) :=
  ⟨⟨_, rfl, rfl, rfl⟩, ⟨_, rfl, rfl, rfl⟩⟩
